import Mathlib

/-!
Shallow embedding of the claude-explains-api process-supervision core.

Source files embedded:
- `src/main.py`   : `run_claude` (pipe-based runner with a timeout) — `Main.run_claude`
- `src/claude.py` : `run_claude` (file-based runner, polling)        — `Claude.run_claude`
- `src/parser.py` : `parse_stream_jsonl`                             — `Parser.parse_stream_jsonl`

JSON values are modelled by an inductive `Json`; the `json.loads` decoder is
an oracle parameter (`String → Option Json`, `none` standing for a
`json.JSONDecodeError`).  Filesystem reads are oracles as well: an
`Option String` is `none` when the read raises `FileNotFoundError`.
Subprocess behaviour (spawn success, exit code, captured output) is an
explicit outcome record, since the child process is an opaque external
program.  Paths on which the Python source raises an uncaught exception
(e.g. calling `.get` on a decoded non-dict) are modelled as `none` results.
-/

/-- JSON values as produced by `json.loads`.  Numbers are modelled as `Int`
(no claim in scope depends on float semantics; `total_cost_usd` is carried
opaquely).  Objects are association lists in insertion order. -/
inductive Json where
  | null : Json
  | bool : Bool → Json
  | num : Int → Json
  | str : String → Json
  | arr : List Json → Json
  | obj : List (String × Json) → Json
deriving Repr

/-- Python truthiness of a JSON value (`if v:`): `None`, `False`, `0`, `""`,
`[]` and `{}` are falsy, everything else truthy. -/
def jsonTruthy : Json → Bool
  | .null => false
  | .bool b => b
  | .num n => n != 0
  | .str s => s != ""
  | .arr xs => !xs.isEmpty
  | .obj kvs => !kvs.isEmpty

/-- `d.get(k)` on a decoded JSON object: the value at key `k`, if present.
`json.loads` keeps the last binding for a duplicated key, hence the
reversed search. -/
def jget (kvs : List (String × Json)) (k : String) : Option Json :=
  (kvs.reverse.find? (fun kv => kv.1 = k)).map (·.2)

/-- `d.get(k, default)` on a decoded JSON object. -/
def jgetD (kvs : List (String × Json)) (k : String) (d : Json) : Json :=
  (jget kvs k).getD d

/-- Python `v == s` for a string literal `s`: true exactly when `v` is that
string (comparison of a non-string JSON value with a `str` is `False`). -/
def isStr (v : Json) (s : String) : Bool :=
  match v with
  | .str t => t = s
  | _ => false

/-- Truthiness of an optional-string argument (`if resume_id:`):
`None` and `""` are falsy. -/
def pyTruthy : Option String → Bool
  | none => false
  | some s => s != ""

/-- The whitespace characters recognized by Python's `str.strip()` and
`str.splitlines()` in the ASCII range (further Unicode whitespace is
outside the modelled input alphabet). -/
def pySpace (c : Char) : Bool :=
  c = ' ' || c = '\t' || c = '\n' || c = '\r' || c = '\x0b' || c = '\x0c'

/-- Python `s.strip()`: drop whitespace from both ends. -/
def pyStrip (s : String) : String :=
  String.mk (((s.data.dropWhile pySpace).reverse.dropWhile pySpace).reverse)

/-- Worker for `pySplitlines`: split a character list at `\r\n`, `\r` or
`\n`, not emitting a trailing empty line. -/
def pySplitlinesGo : List Char → List Char → List (List Char)
  | [], acc => if acc.isEmpty then [] else [acc.reverse]
  | '\r' :: '\n' :: rest, acc => acc.reverse :: pySplitlinesGo rest []
  | '\r' :: rest, acc => acc.reverse :: pySplitlinesGo rest []
  | '\n' :: rest, acc => acc.reverse :: pySplitlinesGo rest []
  | c :: rest, acc => pySplitlinesGo rest (c :: acc)

/-- Python `s.splitlines()` restricted to the `\n` / `\r\n` / `\r`
terminators (the Unicode-only terminators are outside the modelled input
alphabet). -/
def pySplitlines (s : String) : List String :=
  (pySplitlinesGo s.data []).map String.mk

/-- The dict returned by both `run_claude` variants:
`{"result": ..., "session_id": ..., "is_error": ...}`.
`result` and `session_id` carry the stored JSON values verbatim;
`is_error` is the truthiness of the stored value, which is how every
caller of `run_claude` consumes it (`if response["is_error"]:`). -/
structure RunResult where
  result : Json
  session_id : Json
  is_error : Bool
deriving Repr

/-- Instrumented outcome of one `run_claude` call: the argument vector it
assembled, whether a subprocess came into existence, and the returned dict
(`none` when the source raises an uncaught exception instead of
returning). -/
structure RunTrace where
  cmd : List String
  spawned : Bool
  ret : Option RunResult
deriving Repr

namespace Claude

/-- Command assembly of `src/claude.py run_claude` (lines 63-77):
base flags, then `--resume` if `resume_id` is truthy, else `--session-id`
if `session_id` is truthy, then the prompt as trailing argument. -/
def build_cmd (max_budget_usd : String) (session_id resume_id : Option String)
    (prompt : String) : List String :=
  ["claude", "-p", "--output-format", "json", "--max-budget-usd", max_budget_usd]
    ++ (if pyTruthy resume_id then ["--resume", resume_id.getD ""]
        else if pyTruthy session_id then ["--session-id", session_id.getD ""]
        else [])
    ++ [prompt]

/-- Environment outcome of one invocation of `src/claude.py run_claude`:
what the subprocess and the filesystem did.
`startErr` is the exception text when `create_subprocess_exec` raises;
`stderrFileContent` is `none` when the `.stderr` file does not exist;
`outputFileContent` is `none` when reading the output file raises
`FileNotFoundError`. -/
structure Outcome where
  startErr : Option String
  returncode : Int
  stderrFileContent : Option String
  outputFileContent : Option String
deriving Repr

/-- `src/claude.py run_claude` (lines 39-174), with subprocess and
filesystem behaviour supplied by `o` and `json.loads` by `decode`.
The cancellation path (lines 123-127) re-raises and is outside the
returned-result domain.  A decoded non-dict payload makes the source raise
`AttributeError` at `data.get` (modelled `ret := none`). -/
def run_claude (decode : String → Option Json) (max_budget_usd : String)
    (o : Outcome) (session_id resume_id : Option String) (prompt : String) :
    RunTrace :=
  let cmd := build_cmd max_budget_usd session_id resume_id prompt
  match o.startErr with
  | some e =>
    { cmd := cmd, spawned := false,
      ret := some { result := .str ("Failed to start claude: " ++ e),
                    session_id := .str "", is_error := true } }
  | none =>
    if o.returncode != 0 then
      { cmd := cmd, spawned := true,
        ret := some { result := .str ("Claude CLI failed (exit " ++ toString o.returncode
                        ++ "): " ++ pyStrip (o.stderrFileContent.getD "")),
                      session_id := .str "", is_error := true } }
    else
      match o.outputFileContent with
      | none =>
        { cmd := cmd, spawned := true,
          ret := some { result := .str "Claude produced no output file",
                        session_id := .str "", is_error := true } }
      | some raw =>
        if pyStrip raw = "" then
          { cmd := cmd, spawned := true,
            ret := some { result := .str "Claude produced empty output",
                          session_id := .str "", is_error := true } }
        else
          match decode raw with
          | none =>
            { cmd := cmd, spawned := true,
              ret := some { result := .str raw, session_id := .str "",
                            is_error := false } }
          | some (.obj kvs) =>
            { cmd := cmd, spawned := true,
              ret := some { result := jgetD kvs "result" (.str raw),
                            session_id := jgetD kvs "session_id" (.str ""),
                            is_error := jsonTruthy (jgetD kvs "is_error" (.bool false)) } }
          | some _ =>
            { cmd := cmd, spawned := true, ret := none }

end Claude

namespace Main

/-- Command assembly of `src/main.py run_claude` (lines 79-95): same
continuation logic as `Claude.build_cmd`, plus `--permission-mode dontAsk`. -/
def build_cmd (max_budget_usd : String) (session_id resume_id : Option String)
    (prompt : String) : List String :=
  ["claude", "-p", "--output-format", "json", "--max-budget-usd", max_budget_usd,
    "--permission-mode", "dontAsk"]
    ++ (if pyTruthy resume_id then ["--resume", resume_id.getD ""]
        else if pyTruthy session_id then ["--session-id", session_id.getD ""]
        else [])
    ++ [prompt]

/-- Environment outcome of one invocation of `src/main.py run_claude`:
whether `wait_for(process.communicate(), ...)` timed out, the exit code,
and the captured pipe contents (already decoded from UTF-8). -/
structure Outcome where
  timedOut : Bool
  returncode : Int
  stdout : String
  stderr : String
deriving Repr

/-- `src/main.py run_claude` (lines 62-133).  `create_subprocess_exec` is
not wrapped in a try/except here, so a startup failure propagates as an
exception rather than a result; the modelled domain is the invocations on
which the spawn call itself returns. -/
def run_claude (decode : String → Option Json) (max_budget_usd : String)
    (o : Outcome) (session_id resume_id : Option String) (prompt : String) :
    RunTrace :=
  let cmd := build_cmd max_budget_usd session_id resume_id prompt
  if o.timedOut then
    { cmd := cmd, spawned := true,
      ret := some { result := .str "Claude timed out", session_id := .str "",
                    is_error := true } }
  else if o.returncode != 0 then
    { cmd := cmd, spawned := true,
      ret := some { result := .str ("Claude CLI failed (exit " ++ toString o.returncode
                      ++ "): " ++ pyStrip o.stderr),
                    session_id := .str "", is_error := true } }
  else
    match decode o.stdout with
    | none =>
      { cmd := cmd, spawned := true,
        ret := some { result := .str o.stdout, session_id := .str "",
                      is_error := false } }
    | some (.obj kvs) =>
      { cmd := cmd, spawned := true,
        ret := some { result := jgetD kvs "result" (.str o.stdout),
                      session_id := jgetD kvs "session_id" (.str ""),
                      is_error := jsonTruthy (jgetD kvs "is_error" (.bool false)) } }
    | some _ =>
      { cmd := cmd, spawned := true, ret := none }

end Main

namespace Parser

/-- Running state of the scan loop in `src/parser.py parse_stream_jsonl`
(lines 31-36).  Each field holds the raw JSON value last stored, exactly as
the Python locals do; initial values are `""`, `""`, `False`, `[]`, `0.0`
(the zero cost modelled as the number `0`). -/
structure StreamState where
  last_assistant_text : Json
  session_id : Json
  is_error : Json
  errors : Json
  cost_usd : Json
deriving Repr

/-- The initial scan state (parser.py lines 32-36). -/
def initState : StreamState :=
  { last_assistant_text := .str "", session_id := .str "",
    is_error := .bool false, errors := .arr [], cost_usd := .num 0 }

/-- Python iteration over a decoded JSON value (`for block in content:`):
a list yields its items, a string yields its characters as one-character
strings, a dict yields its keys; numbers, booleans and `None` are not
iterable — the source raises `TypeError` there (`none`). -/
def iterItems : Json → Option (List Json)
  | .arr xs => some xs
  | .str s => some (s.data.map fun c => .str (String.mk [c]))
  | .obj kvs => some (kvs.map fun kv => .str kv.1)
  | _ => none

/-- One pass of the block loop (parser.py lines 65-69): a dict block whose
`type` equals `"text"` contributes `block.get("text", "")`; a bare string
contributes itself; everything else is skipped. -/
def blockEntry (block : Json) : Option Json :=
  match block with
  | .obj b =>
    match jget b "type" with
    | some (.str "text") => some (jgetD b "text" (.str ""))
    | _ => none
  | .str s => some (.str s)
  | _ => none

/-- The `texts` list built from a content array (parser.py lines 64-69). -/
def extractTexts (items : List Json) : List Json :=
  items.filterMap blockEntry

/-- All entries of `texts` as Lean strings, or `none` if one of them is a
non-string JSON value — on those `"\n".join(texts)` raises `TypeError` in
the source. -/
def allStrings : List Json → Option (List String)
  | [] => some []
  | .str s :: rest => (allStrings rest).map (s :: ·)
  | _ :: _ => none

/-- The `"assistant"` branch (parser.py lines 60-71).  `message` defaults
to `{}` and `content` to `[]`; a non-dict `message` makes `.get` raise
(`none`).  The captured text is overwritten only when `texts` is
non-empty. -/
def assistantStep (st : StreamState) (kvs : List (String × Json)) :
    Option StreamState :=
  match jgetD kvs "message" (.obj []) with
  | .obj m =>
    match iterItems (jgetD m "content" (.arr [])) with
    | none => none
    | some items =>
      let texts := extractTexts items
      if texts.isEmpty then some st
      else
        match allStrings texts with
        | none => none
        | some ss =>
          some { st with last_assistant_text := .str (String.intercalate "\n" ss) }
  | _ => none

/-- The `"result"` branch (parser.py lines 50-57): `session_id`,
`is_error`, `errors` and `total_cost_usd` default to their previous values;
then a truthy `result` field overwrites the captured assistant text. -/
def resultStep (st : StreamState) (kvs : List (String × Json)) : StreamState :=
  let st' : StreamState :=
    { st with
      session_id := jgetD kvs "session_id" st.session_id,
      is_error := jgetD kvs "is_error" st.is_error,
      errors := jgetD kvs "errors" st.errors,
      cost_usd := jgetD kvs "total_cost_usd" st.cost_usd }
  match jget kvs "result" with
  | some v => if jsonTruthy v then { st' with last_assistant_text := v } else st'
  | none => st'

/-- Dispatch on one decoded event (parser.py lines 47-71).
`event.get("type", "")` requires a dict; a decoded non-dict line makes the
source raise `AttributeError` (`none`).  Unrecognized types are a no-op. -/
def streamStep (st : StreamState) (event : Json) : Option StreamState :=
  match event with
  | .obj kvs =>
    let etype := jgetD kvs "type" (.str "")
    if isStr etype "result" then some (resultStep st kvs)
    else if isStr etype "assistant" then assistantStep st kvs
    else some st
  | _ => none

/-- The line loop (parser.py lines 38-71): each line is stripped, blank
lines and lines on which `json.loads` raises (`decodeLine _ = none`) are
skipped, decoded events feed `streamStep`. -/
def runStream (decodeLine : String → Option Json) (lines : List String) :
    Option StreamState :=
  lines.foldlM
    (fun st line =>
      let line := pyStrip line
      if line = "" then some st
      else
        match decodeLine line with
        | none => some st
        | some ev => streamStep st ev)
    initState

/-- The dict returned by `parse_stream_jsonl`.  The early returns for a
missing or empty file carry only three keys, so `errors` and `cost_usd`
are `Option Json` with `none` meaning the key is absent from the returned
dict. -/
structure StreamResult where
  result : Json
  session_id : Json
  is_error : Json
  errors : Option Json
  cost_usd : Option Json
deriving Repr

/-- `src/parser.py parse_stream_jsonl` (lines 8-107).
`fileContent` is `none` when `read_text` raises `FileNotFoundError`;
`decodeLine` / `decodeWhole` stand for `json.loads` on a stripped line and
on the whole raw text (the fallback at line 76).  `none` overall marks the
inputs on which the source raises (non-dict event or fallback payload,
non-string captured text at the final length-logging call). -/
def parse_stream_jsonl (decodeLine decodeWhole : String → Option Json)
    (fileContent : Option String) : Option StreamResult :=
  match fileContent with
  | none =>
    some { result := .str "Claude produced no output file", session_id := .str "",
           is_error := .bool true, errors := none, cost_usd := none }
  | some raw =>
    if pyStrip raw = "" then
      some { result := .str "Claude produced empty output", session_id := .str "",
             is_error := .bool true, errors := none, cost_usd := none }
    else
      match runStream decodeLine (pySplitlines (pyStrip raw)) with
      | none => none
      | some st =>
        if !jsonTruthy st.last_assistant_text && !jsonTruthy st.session_id then
          match decodeWhole raw with
          | some (.obj kvs) =>
            some { result := jgetD kvs "result" (.str raw),
                   session_id := jgetD kvs "session_id" (.str ""),
                   is_error := jgetD kvs "is_error" (.bool false),
                   errors := some (jgetD kvs "errors" (.arr [])),
                   cost_usd := some (jgetD kvs "total_cost_usd" (.num 0)) }
          | some _ => none
          | none =>
            some { result := .str raw, session_id := .str "",
                   is_error := .bool false, errors := some (.arr []),
                   cost_usd := some (.num 0) }
        else
          match st.last_assistant_text with
          | .str _ =>
            some { result := st.last_assistant_text, session_id := st.session_id,
                   is_error := st.is_error, errors := some st.errors,
                   cost_usd := some st.cost_usd }
          | _ => none

end Parser

/-! ## Concrete fixtures used by counterexamples and witnesses -/

/-- A well-formed single-JSON success payload, as the external program
would print it. -/
def rawOk : String := "\x7b\"result\": \"ok\", \"session_id\": \"abc\", \"is_error\": false\x7d"

/-- A well-formed single-JSON payload whose own `is_error` field is true. -/
def rawErr : String := "\x7b\"result\": \"boom\", \"session_id\": \"abc\", \"is_error\": true\x7d"

/-- A concrete `json.loads` oracle for the two single-JSON fixtures; every
other input fails to decode. -/
def dec0 : String → Option Json := fun s =>
  if s = rawOk then
    some (.obj [("result", .str "ok"), ("session_id", .str "abc"), ("is_error", .bool false)])
  else if s = rawErr then
    some (.obj [("result", .str "boom"), ("session_id", .str "abc"), ("is_error", .bool true)])
  else none

/-- Stream line: an assistant event whose single text block says `hello`. -/
def lineA1 : String :=
  "\x7b\"type\":\"assistant\",\"message\":\x7b\"content\":[\x7b\"type\":\"text\",\"text\":\"hello\"\x7d]\x7d\x7d"

/-- Stream line: an assistant event whose content array is empty. -/
def lineA2 : String :=
  "\x7b\"type\":\"assistant\",\"message\":\x7b\"content\":[]\x7d\x7d"

/-- Stream line: a result event carrying only a session id. -/
def lineR1 : String :=
  "\x7b\"type\":\"result\",\"session_id\":\"s1\"\x7d"

/-- Decoded form of `lineA1`. -/
def evA1 : Json :=
  .obj [("type", .str "assistant"),
        ("message", .obj [("content",
          .arr [.obj [("type", .str "text"), ("text", .str "hello")]])])]

/-- Decoded form of `lineA2`. -/
def evA2 : Json :=
  .obj [("type", .str "assistant"), ("message", .obj [("content", .arr [])])]

/-- Decoded form of `lineR1`. -/
def evR1 : Json :=
  .obj [("type", .str "result"), ("session_id", .str "s1")]

/-- Stream line: a result event carrying a non-empty `result` string. -/
def lineR2 : String :=
  "\x7b\"type\":\"result\",\"result\":\"fin\",\"session_id\":\"s2\"\x7d"

/-- Decoded form of `lineR2`. -/
def evR2 : Json :=
  .obj [("type", .str "result"), ("result", .str "fin"), ("session_id", .str "s2")]

/-- A concrete `json.loads` oracle for the stream lines. -/
def decStream : String → Option Json := fun s =>
  if s = lineA1 then some evA1
  else if s = lineA2 then some evA2
  else if s = lineR1 then some evR1
  else if s = lineR2 then some evR2
  else none

/-- The JSONL file content assembled from the three stream lines. -/
def streamRaw : String := lineA1 ++ "\n" ++ lineA2 ++ "\n" ++ lineR1

/-! ## Helper lemmas -/

/-- A JSON value that compares equal to the string `s` is that string. -/
lemma isStr_eq {v : Json} {s : String} (h : isStr v s = true) : v = .str s := by
  cases v <;> simp_all [isStr]

/-- The assembled command of `Claude.run_claude` is `Claude.build_cmd`,
on every environment outcome. -/
lemma claude_cmd_eq (decode : String → Option Json) (mb : String)
    (o : Claude.Outcome) (sid rid : Option String) (p : String) :
    (Claude.run_claude decode mb o sid rid p).cmd = Claude.build_cmd mb sid rid p := by
  unfold Claude.run_claude
  rcases o with ⟨se, rc, sf, oc⟩
  cases se <;> cases oc <;> dsimp only <;> (repeat' split) <;> rfl

/-- When the spawn call does not raise, `Claude.run_claude` reaches each of
its return points with a subprocess in existence. -/
lemma claude_spawned_of_start (decode : String → Option Json) (mb : String)
    (o : Claude.Outcome) (sid rid : Option String) (p : String)
    (h : o.startErr = none) :
    (Claude.run_claude decode mb o sid rid p).spawned = true := by
  unfold Claude.run_claude
  rcases o with ⟨se, rc, sf, oc⟩
  cases se with
  | none => cases oc <;> dsimp only <;> (repeat' split) <;> rfl
  | some e => simp at h

/-- The assembled command of `Main.run_claude` is `Main.build_cmd`. -/
lemma main_cmd_eq (decode : String → Option Json) (mb : String)
    (o : Main.Outcome) (sid rid : Option String) (p : String) :
    (Main.run_claude decode mb o sid rid p).cmd = Main.build_cmd mb sid rid p := by
  unfold Main.run_claude
  dsimp only
  (repeat' split) <;> rfl

/-- `Main.run_claude` spawns on every path (the spawn call is not guarded
by a try/except in `src/main.py`). -/
lemma main_spawned (decode : String → Option Json) (mb : String)
    (o : Main.Outcome) (sid rid : Option String) (p : String) :
    (Main.run_claude decode mb o sid rid p).spawned = true := by
  unfold Main.run_claude
  dsimp only
  (repeat' split) <;> rfl

/-- With a truthy resume id, both command builders emit `--resume` and not
`--session-id`, regardless of the session id. -/
lemma build_cmd_resume (mb : String) (sid : Option String) (r p : String)
    (hrne : r ≠ "") :
    Claude.build_cmd mb sid (some r) p
      = ["claude", "-p", "--output-format", "json", "--max-budget-usd", mb,
         "--resume", r, p]
    ∧ Main.build_cmd mb sid (some r) p
      = ["claude", "-p", "--output-format", "json", "--max-budget-usd", mb,
         "--permission-mode", "dontAsk", "--resume", r, p] := by
  constructor <;> simp [Claude.build_cmd, Main.build_cmd, pyTruthy, hrne]

/-! ## C1 -/

/-- C1 (counterexample): with both a resume id and a new-session id set and
a benign environment, `run_claude` does not reject the request — a
subprocess is spawned (in both runner variants) and the returned result has
`is_error = false`, contradicting the claimed `is_error = true` rejection
before any spawn. -/
theorem C1_counterexample :
    (Claude.run_claude dec0 "5.0" ⟨none, 0, some "", some rawOk⟩
        (some "sess-1") (some "res-1") "hi").spawned = true
    ∧ (Claude.run_claude dec0 "5.0" ⟨none, 0, some "", some rawOk⟩
        (some "sess-1") (some "res-1") "hi").ret
        = some ⟨.str "ok", .str "abc", false⟩
    ∧ (Main.run_claude dec0 "5.0" ⟨false, 0, rawOk, ""⟩
        (some "sess-1") (some "res-1") "hi").spawned = true
    ∧ (Main.run_claude dec0 "5.0" ⟨false, 0, rawOk, ""⟩
        (some "sess-1") (some "res-1") "hi").ret
        = some ⟨.str "ok", .str "abc", false⟩ :=
  ⟨rfl, rfl, rfl, rfl⟩

/-- C1 (amended): for every invocation request in which both a resume id
and a new-session id are set (truthy), neither `run_claude` rejects the
request — command building silently prefers the resume id, assembling a
command that carries `--resume <id>` and no `--session-id` flag, and the
subprocess is spawned as usual (in the file-based runner, whenever the
spawn call itself does not raise; in the pipe-based runner,
unconditionally). -/
theorem C1_amended_thm (decode : String → Option Json) (mb : String)
    (oc : Claude.Outcome) (om : Main.Outcome) (sid : Option String)
    (r p : String) (hrne : r ≠ "") (hsid : pyTruthy sid = true) :
    (Claude.run_claude decode mb oc sid (some r) p).cmd
      = ["claude", "-p", "--output-format", "json", "--max-budget-usd", mb,
         "--resume", r, p]
    ∧ (oc.startErr = none →
        (Claude.run_claude decode mb oc sid (some r) p).spawned = true)
    ∧ (Main.run_claude decode mb om sid (some r) p).cmd
      = ["claude", "-p", "--output-format", "json", "--max-budget-usd", mb,
         "--permission-mode", "dontAsk", "--resume", r, p]
    ∧ (Main.run_claude decode mb om sid (some r) p).spawned = true := by
  refine ⟨?_, ?_, ?_, ?_⟩
  · rw [claude_cmd_eq]
    exact (build_cmd_resume mb sid r p hrne).1
  · intro h
    exact claude_spawned_of_start decode mb oc sid (some r) p h
  · rw [main_cmd_eq]
    exact (build_cmd_resume mb sid r p hrne).2
  · exact main_spawned decode mb om sid (some r) p

/-- C1 (witness): the amended theorem applied at a concrete request with
both continuation ids set. -/
theorem C1_amended_witness :
    (Claude.run_claude dec0 "5.0" ⟨none, 0, some "", some rawOk⟩
        (some "sess-1") (some "res-1") "hi").cmd
      = ["claude", "-p", "--output-format", "json", "--max-budget-usd", "5.0",
         "--resume", "res-1", "hi"]
    ∧ (Claude.run_claude dec0 "5.0" ⟨none, 0, some "", some rawOk⟩
        (some "sess-1") (some "res-1") "hi").spawned = true
    ∧ (Main.run_claude dec0 "5.0" ⟨false, 0, rawOk, ""⟩
        (some "sess-1") (some "res-1") "hi").cmd
      = ["claude", "-p", "--output-format", "json", "--max-budget-usd", "5.0",
         "--permission-mode", "dontAsk", "--resume", "res-1", "hi"]
    ∧ (Main.run_claude dec0 "5.0" ⟨false, 0, rawOk, ""⟩
        (some "sess-1") (some "res-1") "hi").spawned = true := by
  have h := C1_amended_thm dec0 "5.0" ⟨none, 0, some "", some rawOk⟩
    ⟨false, 0, rawOk, ""⟩ (some "sess-1") "res-1" "hi"
    (by decide) (by decide)
  exact ⟨h.1, h.2.1 rfl, h.2.2.1, h.2.2.2⟩

/-! ## C2 -/

/-- C2 (counterexample): with exit code 0, no startup failure and no
timeout, a missing output file yields `is_error = true` (both in the
file-based runner and in the stream parser), and a well-formed payload
whose own `is_error` field is true also yields `is_error = true` — so
conditions other than StartupFailure, Timeout and NonZeroExit do produce
error results, contrary to the claim. -/
theorem C2_counterexample :
    (Claude.run_claude dec0 "5.0" ⟨none, 0, some "", none⟩ none none "hi").ret
      = some ⟨.str "Claude produced no output file", .str "", true⟩
    ∧ Parser.parse_stream_jsonl dec0 dec0 none
      = some ⟨.str "Claude produced no output file", .str "", .bool true, none, none⟩
    ∧ (Claude.run_claude dec0 "5.0" ⟨none, 0, some "", some rawErr⟩ none none "hi").ret
      = some ⟨.str "boom", .str "abc", true⟩ :=
  ⟨rfl, rfl, rfl⟩

/-- C2 (amended): StartupFailure, Timeout and NonZeroExit produce
`is_error = true`; MissingOutput (output file absent, or its content
whitespace-only) also produces `is_error = true`, in the file-based runner
and in the stream parser alike; MalformedOutput alone is absorbed with
`is_error = false` and the raw text as result; and a successfully decoded
JSON-object payload propagates the truthiness of its own `is_error` field. -/
theorem C2_amended_thm :
    (∀ (decode : String → Option Json) (mb : String) (sid rid : Option String)
        (p e : String) (rc : Int) (sf oc : Option String),
      (Claude.run_claude decode mb ⟨some e, rc, sf, oc⟩ sid rid p).ret.map
          RunResult.is_error = some true)
    ∧ (∀ (decode : String → Option Json) (mb : String) (sid rid : Option String)
        (p : String) (rc : Int) (so se : String),
      (Main.run_claude decode mb ⟨true, rc, so, se⟩ sid rid p).ret.map
          RunResult.is_error = some true)
    ∧ (∀ (decode : String → Option Json) (mb : String) (sid rid : Option String)
        (p : String) (rc : Int) (sf oc : Option String), rc ≠ 0 →
      (Claude.run_claude decode mb ⟨none, rc, sf, oc⟩ sid rid p).ret.map
          RunResult.is_error = some true)
    ∧ (∀ (decode : String → Option Json) (mb : String) (sid rid : Option String)
        (p : String) (rc : Int) (so se : String), rc ≠ 0 →
      (Main.run_claude decode mb ⟨false, rc, so, se⟩ sid rid p).ret.map
          RunResult.is_error = some true)
    ∧ (∀ (decode : String → Option Json) (mb : String) (sid rid : Option String)
        (p : String) (sf : Option String),
      (Claude.run_claude decode mb ⟨none, 0, sf, none⟩ sid rid p).ret.map
          RunResult.is_error = some true)
    ∧ (∀ (decode : String → Option Json) (mb : String) (sid rid : Option String)
        (p : String) (sf : Option String) (raw : String), pyStrip raw = "" →
      (Claude.run_claude decode mb ⟨none, 0, sf, some raw⟩ sid rid p).ret.map
          RunResult.is_error = some true)
    ∧ (∀ (decodeLine decodeWhole : String → Option Json),
      (Parser.parse_stream_jsonl decodeLine decodeWhole none).map
          Parser.StreamResult.is_error = some (.bool true))
    ∧ (∀ (decodeLine decodeWhole : String → Option Json) (raw : String),
        pyStrip raw = "" →
      (Parser.parse_stream_jsonl decodeLine decodeWhole (some raw)).map
          Parser.StreamResult.is_error = some (.bool true))
    ∧ (∀ (decode : String → Option Json) (mb : String) (sid rid : Option String)
        (p : String) (sf : Option String) (raw : String),
        pyStrip raw ≠ "" → decode raw = none →
      (Claude.run_claude decode mb ⟨none, 0, sf, some raw⟩ sid rid p).ret
        = some ⟨.str raw, .str "", false⟩)
    ∧ (∀ (decode : String → Option Json) (mb : String) (sid rid : Option String)
        (p : String) (so se : String), decode so = none →
      (Main.run_claude decode mb ⟨false, 0, so, se⟩ sid rid p).ret
        = some ⟨.str so, .str "", false⟩)
    ∧ (∀ (decode : String → Option Json) (mb : String) (sid rid : Option String)
        (p : String) (sf : Option String) (raw : String)
        (kvs : List (String × Json)),
        pyStrip raw ≠ "" → decode raw = some (.obj kvs) →
      (Claude.run_claude decode mb ⟨none, 0, sf, some raw⟩ sid rid p).ret.map
          RunResult.is_error = some (jsonTruthy (jgetD kvs "is_error" (.bool false))))
    ∧ (∀ (decode : String → Option Json) (mb : String) (sid rid : Option String)
        (p : String) (so se : String) (kvs : List (String × Json)),
        decode so = some (.obj kvs) →
      (Main.run_claude decode mb ⟨false, 0, so, se⟩ sid rid p).ret.map
          RunResult.is_error = some (jsonTruthy (jgetD kvs "is_error" (.bool false)))) := by
  refine ⟨?_, ?_, ?_, ?_, ?_, ?_, ?_, ?_, ?_, ?_, ?_, ?_⟩
  · intros; rfl
  · intros; rfl
  · intro decode mb sid rid p rc sf oc h
    simp [Claude.run_claude, bne_iff_ne, h]
  · intro decode mb sid rid p rc so se h
    simp [Main.run_claude, bne_iff_ne, h]
  · intros; rfl
  · intro decode mb sid rid p sf raw h
    simp [Claude.run_claude, h]
  · intros; rfl
  · intro decodeLine decodeWhole raw h
    simp [Parser.parse_stream_jsonl, h]
  · intro decode mb sid rid p sf raw h hd
    simp [Claude.run_claude, h, hd]
  · intro decode mb sid rid p so se hd
    simp [Main.run_claude, hd]
  · intro decode mb sid rid p sf raw kvs h hd
    simp [Claude.run_claude, h, hd]
  · intro decode mb sid rid p so se kvs hd
    simp [Main.run_claude, hd]

/-- C2 (witness): the amended theorem applied at concrete invocations for
the hypothesis-bearing branches (non-zero exit, empty output file, empty
stream file, malformed output, payload-propagated error flag). -/
theorem C2_amended_witness :
    (Claude.run_claude dec0 "5.0" ⟨none, 3, some "bad", some rawOk⟩ none none "hi").ret.map
        RunResult.is_error = some true
    ∧ (Main.run_claude dec0 "5.0" ⟨false, 3, rawOk, "bad"⟩ none none "hi").ret.map
        RunResult.is_error = some true
    ∧ (Claude.run_claude dec0 "5.0" ⟨none, 0, some "", some "  "⟩ none none "hi").ret.map
        RunResult.is_error = some true
    ∧ (Parser.parse_stream_jsonl dec0 dec0 (some " ")).map
        Parser.StreamResult.is_error = some (.bool true)
    ∧ (Claude.run_claude dec0 "5.0" ⟨none, 0, some "", some "oops"⟩ none none "hi").ret
        = some ⟨.str "oops", .str "", false⟩
    ∧ (Main.run_claude dec0 "5.0" ⟨false, 0, "oops", ""⟩ none none "hi").ret
        = some ⟨.str "oops", .str "", false⟩
    ∧ (Claude.run_claude dec0 "5.0" ⟨none, 0, some "", some rawErr⟩ none none "hi").ret.map
        RunResult.is_error
        = some (jsonTruthy (jgetD [("result", .str "boom"), ("session_id", .str "abc"),
            ("is_error", .bool true)] "is_error" (.bool false)))
    ∧ (Main.run_claude dec0 "5.0" ⟨false, 0, rawErr, ""⟩ none none "hi").ret.map
        RunResult.is_error
        = some (jsonTruthy (jgetD [("result", .str "boom"), ("session_id", .str "abc"),
            ("is_error", .bool true)] "is_error" (.bool false))) := by
  refine ⟨?_, ?_, ?_, ?_, ?_, ?_, ?_, ?_⟩
  · exact C2_amended_thm.2.2.1 dec0 "5.0" none none "hi" 3 (some "bad") (some rawOk)
      (by decide)
  · exact C2_amended_thm.2.2.2.1 dec0 "5.0" none none "hi" 3 rawOk "bad" (by decide)
  · exact C2_amended_thm.2.2.2.2.2.1 dec0 "5.0" none none "hi" (some "") "  " (by decide)
  · exact C2_amended_thm.2.2.2.2.2.2.2.1 dec0 dec0 " " (by decide)
  · exact C2_amended_thm.2.2.2.2.2.2.2.2.1 dec0 "5.0" none none "hi" (some "") "oops"
      (by decide) rfl
  · exact C2_amended_thm.2.2.2.2.2.2.2.2.2.1 dec0 "5.0" none none "hi" "oops" "" rfl
  · exact C2_amended_thm.2.2.2.2.2.2.2.2.2.2.1 dec0 "5.0" none none "hi" (some "") rawErr
      [("result", .str "boom"), ("session_id", .str "abc"), ("is_error", .bool true)]
      (by decide) rfl
  · exact C2_amended_thm.2.2.2.2.2.2.2.2.2.2.2 dec0 "5.0" none none "hi" rawErr ""
      [("result", .str "boom"), ("session_id", .str "abc"), ("is_error", .bool true)]
      rfl

/-! ## C3 -/

/-- C3 (counterexample): in the stream `lineA1` (assistant says `hello`),
`lineA2` (assistant with an empty content array), `lineR1` (result event
without a `result` field), the parser returns `hello` — the text of the
*first* assistant event — because an assistant event that yields no
extracted entries does not overwrite the captured text.  Under the claim,
the most recent assistant message's extracted text (the empty string) would
be the kept text.  The second conjunct isolates the cause: the
empty-content assistant event leaves the scan state unchanged. -/
theorem C3_counterexample :
    Parser.parse_stream_jsonl decStream decStream (some streamRaw)
      = some ⟨.str "hello", .str "s1", .bool false, some (.arr []), some (.num 0)⟩
    ∧ Parser.streamStep ⟨.str "hello", .str "", .bool false, .arr [], .num 0⟩ evA2
      = some ⟨.str "hello", .str "", .bool false, .arr [], .num 0⟩ :=
  ⟨rfl, rfl⟩

/-- C3 (amended): an assistant event overwrites the previously captured
assistant text with its extracted entries (text blocks and bare string
entries joined in array order with newline separators) only when there is
at least one such entry; an assistant event with no extracted entries
leaves the captured text unchanged.  A result event whose `result` field is
a non-empty string overrides the captured text — in particular a terminal
result event, after which the parser returns that string verbatim. -/
theorem C3_amended_thm :
    (∀ (st : Parser.StreamState) (kvs m : List (String × Json))
        (items : List Json) (ss : List String),
      isStr (jgetD kvs "type" (.str "")) "assistant" = true →
      jgetD kvs "message" (.obj []) = .obj m →
      Parser.iterItems (jgetD m "content" (.arr [])) = some items →
      Parser.extractTexts items ≠ [] →
      Parser.allStrings (Parser.extractTexts items) = some ss →
      Parser.streamStep st (.obj kvs)
        = some { st with last_assistant_text := .str (String.intercalate "\n" ss) })
    ∧ (∀ (st : Parser.StreamState) (kvs m : List (String × Json))
        (items : List Json),
      isStr (jgetD kvs "type" (.str "")) "assistant" = true →
      jgetD kvs "message" (.obj []) = .obj m →
      Parser.iterItems (jgetD m "content" (.arr [])) = some items →
      Parser.extractTexts items = [] →
      Parser.streamStep st (.obj kvs) = some st)
    ∧ (∀ (st : Parser.StreamState) (kvs : List (String × Json)) (s : String),
      isStr (jgetD kvs "type" (.str "")) "result" = true →
      jget kvs "result" = some (.str s) → s ≠ "" →
      Parser.streamStep st (.obj kvs) = some (Parser.resultStep st kvs)
        ∧ (Parser.resultStep st kvs).last_assistant_text = .str s)
    ∧ (∀ (dl : String → Option Json) (lines : List String) (l s : String)
        (kvs : List (String × Json)) (st : Parser.StreamState),
      Parser.runStream dl lines = some st →
      pyStrip l ≠ "" →
      dl (pyStrip l) = some (.obj kvs) →
      isStr (jgetD kvs "type" (.str "")) "result" = true →
      jget kvs "result" = some (.str s) → s ≠ "" →
      Parser.runStream dl (lines ++ [l]) = some (Parser.resultStep st kvs)
        ∧ (Parser.resultStep st kvs).last_assistant_text = .str s)
    ∧ (∀ (dl dw : String → Option Json) (raw : String)
        (st : Parser.StreamState) (s : String),
      pyStrip raw ≠ "" →
      Parser.runStream dl (pySplitlines (pyStrip raw)) = some st →
      st.last_assistant_text = .str s → s ≠ "" →
      Parser.parse_stream_jsonl dl dw (some raw)
        = some ⟨.str s, st.session_id, st.is_error, some st.errors,
                some st.cost_usd⟩) := by
  refine ⟨?_, ?_, ?_, ?_, ?_⟩
  · intro st kvs m items ss h1 h2 h3 h4 h5
    have hx := isStr_eq h1
    simp [Parser.streamStep, Parser.assistantStep, hx, isStr, h2, h3, h5,
      List.isEmpty_iff, h4]
  · intro st kvs m items h1 h2 h3 h4
    have hx := isStr_eq h1
    simp [Parser.streamStep, Parser.assistantStep, hx, isStr, h2, h3, h4]
  · intro st kvs s h1 h2 h3
    have hx := isStr_eq h1
    refine ⟨by simp [Parser.streamStep, hx, isStr], ?_⟩
    simp [Parser.resultStep, h2, jsonTruthy, h3]
  · intro dl lines l s kvs st h1 h2 h3 h4 h5 h6
    have hx := isStr_eq h4
    unfold Parser.runStream at h1 ⊢
    refine ⟨?_, ?_⟩
    · rw [List.foldlM_append, h1]
      simp [List.foldlM, h2, h3, Parser.streamStep, hx, isStr]
    · simp [Parser.resultStep, h5, jsonTruthy, h6]
  · intro dl dw raw st s h0 h1 h2 h3
    simp [Parser.parse_stream_jsonl, h0, h1, h2, jsonTruthy, h3]

/-- C3 (witness): the amended theorem applied to concrete events and a
concrete two-line stream ending in a result event that carries `fin`. -/
theorem C3_amended_witness :
    Parser.streamStep Parser.initState evA1
      = some { Parser.initState with last_assistant_text := .str (String.intercalate "\n" ["hello"]) }
    ∧ Parser.streamStep ⟨.str "hello", .str "", .bool false, .arr [], .num 0⟩ evA2
      = some ⟨.str "hello", .str "", .bool false, .arr [], .num 0⟩
    ∧ Parser.runStream decStream ([lineA1] ++ [lineR2])
      = some (Parser.resultStep ⟨.str "hello", .str "", .bool false, .arr [], .num 0⟩
          [("type", .str "result"), ("result", .str "fin"), ("session_id", .str "s2")])
    ∧ (Parser.resultStep ⟨.str "hello", .str "", .bool false, .arr [], .num 0⟩
          [("type", .str "result"), ("result", .str "fin"), ("session_id", .str "s2")]).last_assistant_text
      = .str "fin"
    ∧ Parser.parse_stream_jsonl decStream decStream (some (lineA1 ++ "\n" ++ lineR2))
      = some ⟨.str "fin", .str "s2", .bool false, some (.arr []), some (.num 0)⟩ := by
  have w1 := C3_amended_thm.1 Parser.initState
    [("type", .str "assistant"),
     ("message", .obj [("content",
       .arr [.obj [("type", .str "text"), ("text", .str "hello")]])])]
    [("content", .arr [.obj [("type", .str "text"), ("text", .str "hello")]])]
    [.obj [("type", .str "text"), ("text", .str "hello")]] ["hello"]
    rfl rfl rfl (by simp [Parser.extractTexts, Parser.blockEntry, jget, jgetD]) rfl
  have w2 := C3_amended_thm.2.1 ⟨.str "hello", .str "", .bool false, .arr [], .num 0⟩
    [("type", .str "assistant"), ("message", .obj [("content", .arr [])])]
    [("content", .arr [])] [] rfl rfl rfl rfl
  have w4 := C3_amended_thm.2.2.2.1 decStream [lineA1] lineR2 "fin"
    [("type", .str "result"), ("result", .str "fin"), ("session_id", .str "s2")]
    ⟨.str "hello", .str "", .bool false, .arr [], .num 0⟩
    rfl (by decide) rfl rfl rfl (by decide)
  have w5 := C3_amended_thm.2.2.2.2 decStream decStream (lineA1 ++ "\n" ++ lineR2)
    ⟨.str "fin", .str "s2", .bool false, .arr [], .num 0⟩ "fin"
    (by decide) rfl rfl (by decide)
  exact ⟨w1, w2, w4.1, w4.2, w5⟩
